import Mathlib

/-!
# Verification of the interactive-resume core (src/game.js)

Shallow embedding of the callout placement engine, leader-line router,
proximity tracker and interaction state machine of `src/game.js`.

Modelling conventions:
* Pixel coordinates are rationals (`ℚ`).  The JavaScript code compares
  Euclidean distances produced by `Math.hypot`; since `hypot` values and the
  radii are nonnegative and squaring is strictly monotone on nonnegatives,
  every comparison of two such distances (or of a distance against a radius)
  is modelled by the equivalent comparison of squared distances.  Leader-line
  segment lengths are axis-aligned (`Math.hypot(d, 0) = |d|`), so they are
  modelled exactly by absolute values, with no squaring.
* DOM side effects (element text, CSS classes, timers) are modelled by
  explicit state fields plus an emitted command list; the `setTimeout`
  scheduled by the signal-lost latch becomes a `pending` entry
  `(stationId, fireTime)` whose callback is `timerFireS`.
-/

namespace Resume

/-- `INTERACT_R` from game.js: proximity radius for glow + callout (88 px). -/
def INTERACT_R : ℚ := 88

/-- `SIGNAL_LOST_R` from game.js: distance beyond which the callout shows
"Signal lost" and fades (180 px). -/
def SIGNAL_LOST_R : ℚ := 180

/-- `CALLOUT_OFFSET` from game.js (36 px). -/
def CALLOUT_OFFSET : ℚ := 36

/-- `CALLOUT_VIEWPORT_PAD` from game.js (12 px). -/
def CALLOUT_VIEWPORT_PAD : ℚ := 12

/-- One entry of the `STATIONS` table in game.js. -/
structure Station where
  id : String
  x : ℚ
  y : ℚ
  color : ℕ
  label : String
deriving Repr, DecidableEq

/-- The `STATIONS` table of game.js, verbatim. -/
def STATIONS : List Station :=
  [⟨"summary-software", 360, 150, 0x00E5FF, "CORE.SW"⟩,
   ⟨"summary-security", 840, 150, 0x3CFF7F, "CORE.SEC"⟩,
   ⟨"core-skills-software", 140, 300, 0x00E5FF, "STACK.SW"⟩,
   ⟨"core-skills-security", 1060, 300, 0x3CFF7F, "STACK.SEC"⟩,
   ⟨"experience-humana", 200, 440, 0xFF6B9D, "EXP.HUMANA"⟩,
   ⟨"experience-paladin", 600, 340, 0xFF9F1C, "EXP.PALADIN"⟩,
   ⟨"experience-ng-2023", 1000, 440, 0x00E5FF, "EXP.NG-23"⟩,
   ⟨"experience-ng-ia-2020", 600, 540, 0xAA7CFF, "EXP.NG-IA"⟩,
   ⟨"experience-utah-dcfs", 200, 600, 0xFF6B9D, "EXP.DCFS"⟩,
   ⟨"experience-earlier", 1000, 600, 0xAA7CFF, "EXP.PRIOR"⟩,
   ⟨"education-certs", 380, 760, 0xFF9F1C, "CREDENTIALS"⟩,
   ⟨"links", 820, 760, 0x3CFF7F, "I/O PORTS"⟩]

/-- Squared Euclidean distance; models each `Math.hypot(x1-x2, y1-y2)`
comparison of game.js via the order-isomorphic squared value. -/
def distSq (x1 y1 x2 y2 : ℚ) : ℚ :=
  (x1 - x2) * (x1 - x2) + (y1 - y2) * (y1 - y2)

/-- Squared distance from the avatar `(px, py)` to a station anchor,
as computed in `_checkProximity`: `Math.hypot(s.def.x - px, s.def.y - py)`. -/
def stationDistSq (px py : ℚ) (s : Station) : ℚ :=
  distSq s.x s.y px py

/-- The running-minimum test of the `_checkProximity` loop: a new squared
distance beats the accumulator (`dist < minDist`, with the initial
`minDist = Infinity` modelled by `none`). -/
def accBound (acc : Option (Station × ℚ)) (d : ℚ) : Prop :=
  match acc with
  | none => True
  | some m => d < m.2

instance : ∀ (acc : Option (Station × ℚ)) (d : ℚ), Decidable (accBound acc d)
  | none, _ => isTrue trivial
  | some m, d => inferInstanceAs (Decidable (d < m.2))

/-- The station-scan loop of `_checkProximity` (game.js lines 336-341):
`if (dist < INTERACT_R && dist < minDist) { minDist = dist; nearest = s; }`,
folded left over the station list with accumulator `(nearest, minDist)`. -/
def nearestGo (px py r : ℚ) : Option (Station × ℚ) → List Station → Option (Station × ℚ)
  | acc, [] => acc
  | acc, s :: rest =>
      if stationDistSq px py s < r * r ∧ accBound acc (stationDistSq px py s)
      then nearestGo px py r (some (s, stationDistSq px py s)) rest
      else nearestGo px py r acc rest

/-- The Proximity Tracker query: the nearest station strictly within radius
`r` of the avatar, or `none`.  Mirrors the scan loop of `_checkProximity`. -/
def nearestStation (stations : List Station) (px py r : ℚ) : Option Station :=
  (nearestGo px py r none stations).map Prod.fst

/-- Complete characterization of the `_checkProximity` scan loop: either the
accumulator survives (and every in-radius station of the list is at least as
far as the accumulated minimum), or the result is the first station of the
list attaining the minimum in-radius distance that beats the accumulator. -/
lemma nearestGo_char (px py r : ℚ) (l : List Station) :
    ∀ acc : Option (Station × ℚ),
      (nearestGo px py r acc l = acc ∧
        ∀ t ∈ l, stationDistSq px py t < r * r →
          ∃ m, acc = some m ∧ m.2 ≤ stationDistSq px py t)
      ∨ (∃ pre s post,
          l = pre ++ s :: post ∧
          nearestGo px py r acc l = some (s, stationDistSq px py s) ∧
          stationDistSq px py s < r * r ∧
          (∀ m, acc = some m → stationDistSq px py s < m.2) ∧
          (∀ t ∈ pre, stationDistSq px py t < r * r →
            stationDistSq px py s < stationDistSq px py t) ∧
          (∀ t ∈ post, stationDistSq px py t < r * r →
            stationDistSq px py s ≤ stationDistSq px py t)) := by
  induction l with
  | nil =>
      intro acc
      exact Or.inl ⟨rfl, by simp⟩
  | cons s rest ih =>
      intro acc
      by_cases hc : stationDistSq px py s < r * r ∧ accBound acc (stationDistSq px py s)
      · have hlt : stationDistSq px py s < r * r := hc.1
        have hbnd : ∀ m, acc = some m → stationDistSq px py s < m.2 := by
          intro m hm
          have h2 := hc.2
          rw [hm] at h2
          simpa [accBound] using h2
        have hstep : nearestGo px py r acc (s :: rest)
            = nearestGo px py r (some (s, stationDistSq px py s)) rest := by
          rw [nearestGo, if_pos hc]
        rcases ih (some (s, stationDistSq px py s)) with
          ⟨h1, h2⟩ | ⟨pre, s2, post, hdec, hres, hlt2, hacc, hpre, hpost⟩
        · refine Or.inr ⟨[], s, rest, by simp, ?_, hlt, hbnd, by simp, ?_⟩
          · rw [hstep, h1]
          · intro t ht hw
            obtain ⟨m, hm, hle⟩ := h2 t ht hw
            cases hm
            exact hle
        · refine Or.inr ⟨s :: pre, s2, post, ?_, ?_, hlt2, ?_, ?_, hpost⟩
          · rw [hdec]; rfl
          · rw [hstep]; exact hres
          · intro m hm
            exact lt_trans (hacc (s, stationDistSq px py s) rfl) (hbnd m hm)
          · intro t ht hw
            rcases List.mem_cons.1 ht with h | h
            · subst h
              exact hacc (t, stationDistSq px py t) rfl
            · exact hpre t h hw
      · have hstep : nearestGo px py r acc (s :: rest)
            = nearestGo px py r acc rest := by
          rw [nearestGo, if_neg hc]
        have hsk : stationDistSq px py s < r * r →
            ∃ m, acc = some m ∧ m.2 ≤ stationDistSq px py s := by
          intro hw
          cases acc with
          | none =>
              exact absurd ⟨hw, trivial⟩ hc
          | some m =>
              refine ⟨m, rfl, ?_⟩
              by_contra hle
              push_neg at hle
              exact hc ⟨hw, hle⟩
        rcases ih acc with
          ⟨h1, h2⟩ | ⟨pre, s2, post, hdec, hres, hlt2, hacc, hpre, hpost⟩
        · refine Or.inl ⟨by rw [hstep, h1], ?_⟩
          intro t ht hw
          rcases List.mem_cons.1 ht with h | h
          · subst h
            exact hsk hw
          · exact h2 t h hw
        · refine Or.inr ⟨s :: pre, s2, post, ?_, ?_, hlt2, hacc, ?_, hpost⟩
          · rw [hdec]; rfl
          · rw [hstep]; exact hres
          · intro t ht hw
            rcases List.mem_cons.1 ht with h | h
            · subst h
              obtain ⟨m, hm, hle⟩ := hsk hw
              exact lt_of_lt_of_le (hacc m hm) hle
            · exact hpre t h hw

/-- Claim C7: for every avatar position and station list, the nearest-station
query returns the station whose Euclidean distance to the avatar is minimum
among the stations strictly within the interaction radius, with ties resolved
to the first-enumerated station in the list, and returns null when no station
is strictly within the radius.  (Distances are compared via their squares.) -/
theorem nearestStation_spec (stations : List Station) (px py r : ℚ) :
    (nearestStation stations px py r = none →
      ∀ t ∈ stations, ¬ stationDistSq px py t < r * r) ∧
    (∀ s, nearestStation stations px py r = some s →
      ∃ pre post, stations = pre ++ s :: post ∧
        stationDistSq px py s < r * r ∧
        (∀ t ∈ stations, stationDistSq px py t < r * r →
          stationDistSq px py s ≤ stationDistSq px py t) ∧
        (∀ t ∈ pre, stationDistSq px py t < r * r →
          stationDistSq px py s < stationDistSq px py t)) ∧
    ((∃ t ∈ stations, stationDistSq px py t < r * r) →
      nearestStation stations px py r ≠ none) := by
  rcases nearestGo_char px py r stations none with
    ⟨h1, h2⟩ | ⟨pre, s, post, hdec, hres, hlt, _, hpre, hpost⟩
  · refine ⟨?_, ?_, ?_⟩
    · intro _ t ht hw
      obtain ⟨m, hm, _⟩ := h2 t ht hw
      exact Option.noConfusion hm
    · intro s hs
      exfalso
      have hnone : nearestStation stations px py r = none := by
        unfold nearestStation
        rw [h1]
        rfl
      rw [hnone] at hs
      exact Option.noConfusion hs
    · intro ⟨t, ht, hw⟩
      obtain ⟨m, hm, _⟩ := h2 t ht hw
      exact Option.noConfusion hm
  · have hsome : nearestStation stations px py r = some s := by
      unfold nearestStation
      rw [hres]
      rfl
    refine ⟨?_, ?_, ?_⟩
    · intro hnone
      rw [hsome] at hnone
      exact Option.noConfusion hnone
    · intro s' hs'
      rw [hsome] at hs'
      cases hs'
      refine ⟨pre, post, hdec, hlt, ?_, hpre⟩
      intro t ht hw
      rw [hdec] at ht
      rcases List.mem_append.1 ht with h | h
      · exact le_of_lt (hpre t h hw)
      · rcases List.mem_cons.1 h with h' | h'
        · subst h'
          exact le_refl _
        · exact hpost t h' hw
    · intro _
      rw [hsome]
      exact Option.noConfusion

/-- Witness for C7: with the real `STATIONS` table and the avatar at
(360, 200), the query at radius 88 returns `summary-software` (360, 150),
which is strictly within the radius and at minimum distance. -/
theorem nearestStation_spec_witness :
    ∃ pre post,
      STATIONS = pre ++ ⟨"summary-software", 360, 150, 0x00E5FF, "CORE.SW"⟩ :: post ∧
      stationDistSq 360 200 ⟨"summary-software", 360, 150, 0x00E5FF, "CORE.SW"⟩
        < INTERACT_R * INTERACT_R ∧
      (∀ t ∈ STATIONS, stationDistSq 360 200 t < INTERACT_R * INTERACT_R →
        stationDistSq 360 200 ⟨"summary-software", 360, 150, 0x00E5FF, "CORE.SW"⟩
          ≤ stationDistSq 360 200 t) ∧
      (∀ t ∈ pre, stationDistSq 360 200 t < INTERACT_R * INTERACT_R →
        stationDistSq 360 200 ⟨"summary-software", 360, 150, 0x00E5FF, "CORE.SW"⟩
          < stationDistSq 360 200 t) :=
  (nearestStation_spec STATIONS 360 200 INTERACT_R).2.1
    ⟨"summary-software", 360, 150, 0x00E5FF, "CORE.SW"⟩
    (by norm_num [nearestStation, nearestGo, accBound, stationDistSq, distSq,
      STATIONS, INTERACT_R])

/-- One candidate callout origin of `positionCallout` (game.js lines 498-503):
a quadrant name plus the top-left corner of the callout rectangle. -/
structure Cand where
  name : String
  left : ℚ
  top : ℚ
deriving Repr, DecidableEq

/-- The four candidate origins of `positionCallout`, in enumeration order:
top-right, top-left, bottom-right, bottom-left of the station point. -/
def calloutCandidates (sx sy cw ch off : ℚ) : List Cand :=
  [⟨"top-right", sx + off, sy - ch - off⟩,
   ⟨"top-left", sx - cw - off, sy - ch - off⟩,
   ⟨"bottom-right", sx + off, sy + off⟩,
   ⟨"bottom-left", sx - cw - off, sy + off⟩]

/-- The viewport-fit filter predicate of `positionCallout` (lines 506-510):
`c.left >= PAD && c.top >= PAD && c.left + cw <= gaW - PAD && c.top + ch <= gaH - PAD`. -/
def candFits (cw ch gaW gaH pad : ℚ) (c : Cand) : Bool :=
  decide (pad ≤ c.left ∧ pad ≤ c.top ∧ c.left + cw ≤ gaW - pad ∧ c.top + ch ≤ gaH - pad)

/-- `fits` in `positionCallout`: the candidates that survive the filter,
in enumeration order. -/
def calloutFits (sx sy cw ch gaW gaH off pad : ℚ) : List Cand :=
  (calloutCandidates sx sy cw ch off).filter (candFits cw ch gaW gaH pad)

/-- `pool` in `positionCallout`: `fits.length > 0 ? fits : candidates`. -/
def calloutPool (sx sy cw ch gaW gaH off pad : ℚ) : List Cand :=
  if calloutFits sx sy cw ch gaW gaH off pad = []
  then calloutCandidates sx sy cw ch off
  else calloutFits sx sy cw ch gaW gaH off pad

/-- Squared distance from a candidate's center to the avatar screen position,
as in `positionCallout`: `Math.hypot(c.left + cw/2 - px, c.top + ch/2 - py)`. -/
def candCenterDistSq (px py cw ch : ℚ) (c : Cand) : ℚ :=
  distSq (c.left + cw / 2) (c.top + ch / 2) px py

/-- The running-maximum test of the selection loop of `positionCallout`
(`d > bestDist`, with the initial `bestDist = -1` modelled by `none`, which
every nonnegative distance beats). -/
def beats (acc : Option (Cand × ℚ)) (d : ℚ) : Prop :=
  match acc with
  | none => True
  | some m => m.2 < d

instance : ∀ (acc : Option (Cand × ℚ)) (d : ℚ), Decidable (beats acc d)
  | none, _ => isTrue trivial
  | some m, d => inferInstanceAs (Decidable (m.2 < d))

/-- The selection loop of `positionCallout` (lines 514-520): keep the first
candidate whose avatar distance strictly exceeds the running maximum. -/
def pickGo (px py cw ch : ℚ) : Option (Cand × ℚ) → List Cand → Option (Cand × ℚ)
  | acc, [] => acc
  | acc, c :: rest =>
      if beats acc (candCenterDistSq px py cw ch c)
      then pickGo px py cw ch (some (c, candCenterDistSq px py cw ch c)) rest
      else pickGo px py cw ch acc rest

/-- The candidate chosen by `positionCallout` together with its (squared)
avatar distance. -/
def calloutBest (sx sy px py cw ch gaW gaH off pad : ℚ) : Option (Cand × ℚ) :=
  pickGo px py cw ch none (calloutPool sx sy cw ch gaW gaH off pad)

/-- The final clamped callout origin of `positionCallout` (lines 523-527):
`clampedLeft = Math.max(PAD, Math.min(best.left, gaW - cw - PAD))` and the
analogue for `top`.  The pool is never empty, so the `none` branch is
unreachable; it returns the clamp of an in-bounds dummy. -/
def positionCalloutResult (sx sy px py cw ch gaW gaH off pad : ℚ) : ℚ × ℚ :=
  match calloutBest sx sy px py cw ch gaW gaH off pad with
  | some bd => (max pad (min bd.1.left (gaW - cw - pad)),
                max pad (min bd.1.top (gaH - ch - pad)))
  | none => (pad, pad)

/-- Complete characterization of the selection loop of `positionCallout`:
either the accumulator survives (and bounds every element of the list from
above), or the result is the first element of the list attaining the maximum
avatar distance that strictly beats the accumulator. -/
lemma pickGo_char (px py cw ch : ℚ) (l : List Cand) :
    ∀ acc : Option (Cand × ℚ),
      (pickGo px py cw ch acc l = acc ∧
        ∀ t ∈ l, ∃ m, acc = some m ∧ candCenterDistSq px py cw ch t ≤ m.2)
      ∨ (∃ pre c post,
          l = pre ++ c :: post ∧
          pickGo px py cw ch acc l = some (c, candCenterDistSq px py cw ch c) ∧
          (∀ m, acc = some m → m.2 < candCenterDistSq px py cw ch c) ∧
          (∀ t ∈ pre, candCenterDistSq px py cw ch t < candCenterDistSq px py cw ch c) ∧
          (∀ t ∈ post, candCenterDistSq px py cw ch t ≤ candCenterDistSq px py cw ch c)) := by
  induction l with
  | nil =>
      intro acc
      exact Or.inl ⟨rfl, by simp⟩
  | cons c rest ih =>
      intro acc
      by_cases hc : beats acc (candCenterDistSq px py cw ch c)
      · have hbnd : ∀ m, acc = some m → m.2 < candCenterDistSq px py cw ch c := by
          intro m hm
          rw [hm] at hc
          simpa [beats] using hc
        have hstep : pickGo px py cw ch acc (c :: rest)
            = pickGo px py cw ch (some (c, candCenterDistSq px py cw ch c)) rest := by
          rw [pickGo, if_pos hc]
        rcases ih (some (c, candCenterDistSq px py cw ch c)) with
          ⟨h1, h2⟩ | ⟨pre, c2, post, hdec, hres, hacc, hpre, hpost⟩
        · refine Or.inr ⟨[], c, rest, by simp, ?_, hbnd, by simp, ?_⟩
          · rw [hstep, h1]
          · intro t ht
            obtain ⟨m, hm, hle⟩ := h2 t ht
            cases hm
            exact hle
        · refine Or.inr ⟨c :: pre, c2, post, ?_, ?_, ?_, ?_, hpost⟩
          · rw [hdec]; rfl
          · rw [hstep]; exact hres
          · intro m hm
            exact lt_trans (hbnd m hm) (hacc (c, candCenterDistSq px py cw ch c) rfl)
          · intro t ht
            rcases List.mem_cons.1 ht with h | h
            · subst h
              exact hacc (t, candCenterDistSq px py cw ch t) rfl
            · exact hpre t h
      · have hstep : pickGo px py cw ch acc (c :: rest)
            = pickGo px py cw ch acc rest := by
          rw [pickGo, if_neg hc]
        have hsk : ∃ m, acc = some m ∧ candCenterDistSq px py cw ch c ≤ m.2 := by
          cases acc with
          | none =>
              exact absurd trivial hc
          | some m =>
              refine ⟨m, rfl, ?_⟩
              by_contra hle
              push_neg at hle
              exact hc hle
        rcases ih acc with
          ⟨h1, h2⟩ | ⟨pre, c2, post, hdec, hres, hacc, hpre, hpost⟩
        · refine Or.inl ⟨by rw [hstep, h1], ?_⟩
          intro t ht
          rcases List.mem_cons.1 ht with h | h
          · subst h
            exact hsk
          · exact h2 t h
        · refine Or.inr ⟨c :: pre, c2, post, ?_, ?_, hacc, ?_, hpost⟩
          · rw [hdec]; rfl
          · rw [hstep]; exact hres
          · intro t ht
            rcases List.mem_cons.1 ht with h | h
            · subst h
              obtain ⟨m, hm, hle⟩ := hsk
              exact lt_of_le_of_lt hle (hacc m hm)
            · exact hpre t h

lemma calloutPool_ne_nil (sx sy cw ch gaW gaH off pad : ℚ) :
    calloutPool sx sy cw ch gaW gaH off pad ≠ [] := by
  unfold calloutPool
  split
  · simp [calloutCandidates]
  · assumption

/-- Claim C6: for every input, the Placement Engine selects, from the
candidates that fit the padding-shrunk viewport (or from all four candidates
when none fits), a candidate whose center is at maximum (squared) Euclidean
distance from the avatar's screen position, so the chosen candidate is never
closer to the avatar than any other pool candidate; ties are broken by
enumeration order (the chosen candidate strictly beats everything before it
in the pool, whose order starts with top-right). -/
theorem positionCallout_farthest (sx sy px py cw ch gaW gaH off pad : ℚ) :
    ∃ pre c post,
      calloutPool sx sy cw ch gaW gaH off pad = pre ++ c :: post ∧
      calloutBest sx sy px py cw ch gaW gaH off pad
        = some (c, candCenterDistSq px py cw ch c) ∧
      (∀ t ∈ calloutPool sx sy cw ch gaW gaH off pad,
        candCenterDistSq px py cw ch t ≤ candCenterDistSq px py cw ch c) ∧
      (∀ t ∈ pre, candCenterDistSq px py cw ch t < candCenterDistSq px py cw ch c) ∧
      (calloutFits sx sy cw ch gaW gaH off pad ≠ [] →
        calloutPool sx sy cw ch gaW gaH off pad
          = calloutFits sx sy cw ch gaW gaH off pad) ∧
      (calloutFits sx sy cw ch gaW gaH off pad = [] →
        calloutPool sx sy cw ch gaW gaH off pad = calloutCandidates sx sy cw ch off) := by
  rcases pickGo_char px py cw ch (calloutPool sx sy cw ch gaW gaH off pad) none with
    ⟨_, h2⟩ | ⟨pre, c, post, hdec, hres, _, hpre, hpost⟩
  · exfalso
    obtain ⟨t, ht⟩ := List.exists_mem_of_ne_nil _
      (calloutPool_ne_nil sx sy cw ch gaW gaH off pad)
    obtain ⟨m, hm, _⟩ := h2 t ht
    exact Option.noConfusion hm
  · refine ⟨pre, c, post, hdec, hres, ?_, hpre, ?_, ?_⟩
    · intro t ht
      rw [hdec] at ht
      rcases List.mem_append.1 ht with h | h
      · exact le_of_lt (hpre t h)
      · rcases List.mem_cons.1 h with h' | h'
        · subst h'
          exact le_refl _
        · exact hpost t h'
    · intro hne
      unfold calloutPool
      rw [if_neg hne]
    · intro he
      unfold calloutPool
      rw [if_pos he]

/-- Witness for C6: the characterization instantiated at Scenario C's inputs
(viewport 400×300, callout 220×160, offset 36, padding 12, station (10,10),
avatar at the origin). -/
theorem positionCallout_farthest_witness :
    ∃ pre c post,
      calloutPool 10 10 220 160 400 300 36 12 = pre ++ c :: post ∧
      calloutBest 10 10 0 0 220 160 400 300 36 12
        = some (c, candCenterDistSq 0 0 220 160 c) ∧
      (∀ t ∈ calloutPool 10 10 220 160 400 300 36 12,
        candCenterDistSq 0 0 220 160 t ≤ candCenterDistSq 0 0 220 160 c) ∧
      (∀ t ∈ pre, candCenterDistSq 0 0 220 160 t < candCenterDistSq 0 0 220 160 c) ∧
      (calloutFits 10 10 220 160 400 300 36 12 ≠ [] →
        calloutPool 10 10 220 160 400 300 36 12 = calloutFits 10 10 220 160 400 300 36 12) ∧
      (calloutFits 10 10 220 160 400 300 36 12 = [] →
        calloutPool 10 10 220 160 400 300 36 12 = calloutCandidates 10 10 220 160 36) :=
  positionCallout_farthest 10 10 0 0 220 160 400 300 36 12

/-- Claim C5: for every viewport at least as large as the callout plus twice
the padding on each axis, the Placement Engine's output rectangle satisfies
`padding ≤ left`, `left + width ≤ viewportWidth − padding`, and the analogous
bounds for top/height, for every station position, avatar position and
offset. -/
theorem positionCallout_in_viewport (sx sy px py cw ch gaW gaH off pad : ℚ)
    (hW : cw + 2 * pad ≤ gaW) (hH : ch + 2 * pad ≤ gaH) :
    pad ≤ (positionCalloutResult sx sy px py cw ch gaW gaH off pad).1 ∧
    (positionCalloutResult sx sy px py cw ch gaW gaH off pad).1 + cw ≤ gaW - pad ∧
    pad ≤ (positionCalloutResult sx sy px py cw ch gaW gaH off pad).2 ∧
    (positionCalloutResult sx sy px py cw ch gaW gaH off pad).2 + ch ≤ gaH - pad := by
  unfold positionCalloutResult
  rcases calloutBest sx sy px py cw ch gaW gaH off pad with _ | bd
  · refine ⟨le_refl pad, by linarith, le_refl pad, by linarith⟩
  · have h1 : max pad (min bd.1.left (gaW - cw - pad)) ≤ gaW - cw - pad :=
      max_le (by linarith) (min_le_right _ _)
    have h2 : max pad (min bd.1.top (gaH - ch - pad)) ≤ gaH - ch - pad :=
      max_le (by linarith) (min_le_right _ _)
    exact ⟨le_max_left _ _, by linarith, le_max_left _ _, by linarith⟩

/-- Witness for C5: at Scenario C's inputs the viewport (400×300) exceeds
callout-plus-padding (244×184) on both axes, and the resulting origin obeys
all four padding bounds. -/
theorem positionCallout_in_viewport_witness :
    12 ≤ (positionCalloutResult 10 10 0 0 220 160 400 300 36 12).1 ∧
    (positionCalloutResult 10 10 0 0 220 160 400 300 36 12).1 + 220 ≤ 400 - 12 ∧
    12 ≤ (positionCalloutResult 10 10 0 0 220 160 400 300 36 12).2 ∧
    (positionCalloutResult 10 10 0 0 220 160 400 300 36 12).2 + 160 ≤ 300 - 12 :=
  positionCallout_in_viewport 10 10 0 0 220 160 400 300 36 12
    (by norm_num) (by norm_num)

/-- Claim C10: on any axis where the viewport is smaller than the callout
plus twice the padding (so the clamp's bounds cross), the clamped origin on
that axis equals the padding exactly, because `Math.max(PAD, ·)` is applied
after `Math.min(·, size − callout − PAD)`; and on every axis the origin is
never below the padding, so a degenerate viewport can only overflow past the
right/bottom edges. -/
theorem positionCallout_degenerate_clamp (sx sy px py cw ch gaW gaH off pad : ℚ) :
    (gaW < cw + 2 * pad →
      (positionCalloutResult sx sy px py cw ch gaW gaH off pad).1 = pad) ∧
    (gaH < ch + 2 * pad →
      (positionCalloutResult sx sy px py cw ch gaW gaH off pad).2 = pad) ∧
    pad ≤ (positionCalloutResult sx sy px py cw ch gaW gaH off pad).1 ∧
    pad ≤ (positionCalloutResult sx sy px py cw ch gaW gaH off pad).2 := by
  unfold positionCalloutResult
  rcases calloutBest sx sy px py cw ch gaW gaH off pad with _ | bd
  · exact ⟨fun _ => rfl, fun _ => rfl, le_refl pad, le_refl pad⟩
  · refine ⟨?_, ?_, le_max_left _ _, le_max_left _ _⟩
    · intro hW
      have hcross : gaW - cw - pad < pad := by linarith
      have : min bd.1.left (gaW - cw - pad) ≤ pad :=
        le_of_lt (lt_of_le_of_lt (min_le_right _ _) hcross)
      exact max_eq_left this
    · intro hH
      have hcross : gaH - ch - pad < pad := by linarith
      have : min bd.1.top (gaH - ch - pad) ≤ pad :=
        le_of_lt (lt_of_le_of_lt (min_le_right _ _) hcross)
      exact max_eq_left this

/-- Witness for C10: with a 200-px-wide viewport (200 < 220 + 2·12) the
clamped left coordinate equals the padding exactly. -/
theorem positionCallout_degenerate_clamp_witness :
    (positionCalloutResult 10 10 0 0 220 160 200 300 36 12).1 = 12 ∧
    12 ≤ (positionCalloutResult 10 10 0 0 220 160 200 300 36 12).2 :=
  ⟨(positionCallout_degenerate_clamp 10 10 0 0 220 160 200 300 36 12).1 (by norm_num),
   (positionCallout_degenerate_clamp 10 10 0 0 220 160 200 300 36 12).2.2.2⟩

/-- Counterexample to C2 as stated: at viewport 400×300, callout 220×160,
offset 36, padding 12, station screen position (10,10), the bottom-right
candidate (origin (46,46)) passes the viewport-fit filter, so it is false
that all four raw candidates fail and that the unfiltered fallback is
taken. -/
theorem scenarioC_counterexample :
    Cand.mk "bottom-right" 46 46 ∈ calloutFits 10 10 220 160 400 300 36 12 ∧
    calloutFits 10 10 220 160 400 300 36 12 ≠ [] := by
  have h : calloutFits 10 10 220 160 400 300 36 12 = [⟨"bottom-right", 46, 46⟩] := by
    norm_num [calloutFits, calloutCandidates, candFits, List.filter]
  rw [h]
  simp

/-- Claim C2 amended: at viewport 400×300, callout 220×160, offset 36,
padding 12, station screen position (10,10), exactly one raw candidate
(bottom-right, origin (46,46)) passes the viewport-fit filter; no fallback is
taken, that candidate is selected for every avatar position, and the clamped
origin (46,46) lies within [12,168]×[12,128]. -/
theorem scenarioC_amended (px py : ℚ) :
    calloutFits 10 10 220 160 400 300 36 12 = [⟨"bottom-right", 46, 46⟩] ∧
    calloutBest 10 10 px py 220 160 400 300 36 12
      = some (⟨"bottom-right", 46, 46⟩, candCenterDistSq px py 220 160 ⟨"bottom-right", 46, 46⟩) ∧
    positionCalloutResult 10 10 px py 220 160 400 300 36 12 = (46, 46) ∧
    ((12:ℚ) ≤ 46 ∧ (46:ℚ) + 220 ≤ 400 - 12 ∧ (46:ℚ) ≤ 168 ∧ (46:ℚ) ≤ 128) := by
  have hfits : calloutFits 10 10 220 160 400 300 36 12 = [⟨"bottom-right", 46, 46⟩] := by
    norm_num [calloutFits, calloutCandidates, candFits, List.filter]
  have hpool : calloutPool 10 10 220 160 400 300 36 12 = [⟨"bottom-right", 46, 46⟩] := by
    unfold calloutPool
    rw [hfits]
    simp
  have hbest : calloutBest 10 10 px py 220 160 400 300 36 12
      = some (⟨"bottom-right", 46, 46⟩,
          candCenterDistSq px py 220 160 ⟨"bottom-right", 46, 46⟩) := by
    unfold calloutBest
    rw [hpool]
    simp [pickGo, beats]
  refine ⟨hfits, hbest, ?_, by norm_num⟩
  unfold positionCalloutResult
  rw [hbest]
  norm_num

/-- `Math.sign` of JavaScript: 1, -1 or 0. -/
def jsSign (q : ℚ) : ℚ :=
  if 0 < q then 1 else if q < 0 then -1 else 0

/-- The exit-point computation of `drawLeaderLine` (game.js lines 560-577):
clamp the callout-center→station vector to the callout border.  The callout
rectangle is given in game-area coordinates `(cLeft, cTop, cRight, cBottom)`;
`(sx, sy)` is the station screen point.  The degenerate case `dx = dy = 0`
exits at the top-edge midpoint. -/
def leaderExit (sx sy cLeft cTop cRight cBottom : ℚ) : ℚ × ℚ :=
  if |sx - (cLeft + cRight) / 2| = 0 ∧ |sy - (cTop + cBottom) / 2| = 0 then
    ((cLeft + cRight) / 2, cTop)
  else if |sx - (cLeft + cRight) / 2| * ((cBottom - cTop) / 2)
      > |sy - (cTop + cBottom) / 2| * ((cRight - cLeft) / 2) then
    ((cLeft + cRight) / 2 + jsSign (sx - (cLeft + cRight) / 2) * ((cRight - cLeft) / 2),
     (cTop + cBottom) / 2 + (sy - (cTop + cBottom) / 2)
       * (((cRight - cLeft) / 2) / |sx - (cLeft + cRight) / 2|))
  else
    ((cLeft + cRight) / 2 + (sx - (cLeft + cRight) / 2)
       * (((cBottom - cTop) / 2) / |sy - (cTop + cBottom) / 2|),
     (cTop + cBottom) / 2 + jsSign (sy - (cTop + cBottom) / 2) * ((cBottom - cTop) / 2))

/-- The elbow x-midpoint of `drawLeaderLine`: `midX = ex + (sx - ex) * 0.5`. -/
def leaderMidX (sx ex : ℚ) : ℚ :=
  ex + (sx - ex) * (1 / 2)

/-- First leader segment length: `Math.hypot(midX - ex, 0) = |midX - ex|`. -/
def leaderSeg1 (sx ex : ℚ) : ℚ :=
  |leaderMidX sx ex - ex|

/-- Second leader segment length: `Math.hypot(0, sy - ey) = |sy - ey|`. -/
def leaderSeg2 (sy ey : ℚ) : ℚ :=
  |sy - ey|

/-- Third leader segment length: `|sx - midX|`. -/
def leaderSeg3 (sx ex : ℚ) : ℚ :=
  |sx - leaderMidX sx ex|

/-- Total leader path length `totalDist` of `drawLeaderLine`. -/
def leaderTotal (sx sy ex ey : ℚ) : ℚ :=
  leaderSeg1 sx ex + leaderSeg2 sy ey + leaderSeg3 sx ex

/-- The `(seg || 1)` guard of `drawLeaderLine`: a zero-length segment divides
by 1 instead of 0. -/
def segDiv (s : ℚ) : ℚ :=
  if s = 0 then 1 else s

/-- The pulse-dot position of `drawLeaderLine` (game.js lines 596-617):
`traveled = pulseT * totalDist` is located within the three-segment elbow
path; each fractional position divides by `(seg || 1)`. -/
def leaderDot (sx sy ex ey t : ℚ) : ℚ × ℚ :=
  if t * leaderTotal sx sy ex ey ≤ leaderSeg1 sx ex then
    (ex + (leaderMidX sx ex - ex)
       * (t * leaderTotal sx sy ex ey / segDiv (leaderSeg1 sx ex)), ey)
  else if t * leaderTotal sx sy ex ey ≤ leaderSeg1 sx ex + leaderSeg2 sy ey then
    (leaderMidX sx ex,
     ey + (sy - ey) * ((t * leaderTotal sx sy ex ey - leaderSeg1 sx ex)
       / segDiv (leaderSeg2 sy ey)))
  else
    (leaderMidX sx ex + (sx - leaderMidX sx ex)
       * ((t * leaderTotal sx sy ex ey - leaderSeg1 sx ex - leaderSeg2 sy ey)
         / segDiv (leaderSeg3 sx ex)),
     sy)

/-- Claim C9: the Leader-Line Router is total on degenerate inputs.  When the
station is exactly above the callout center (`dx = 0`, station above), the
exit point is the top-edge midpoint and the only division is by the nonzero
`|dy|`; when `dx = dy = 0` the exit point is the top-edge midpoint by
convention; the `(seg || 1)` divisor of the pulse-dot computation is never
zero; and on an all-zero-length path the dot stays at the path start (the
fractional position within a zero-length segment is 0). -/
theorem leaderLine_degenerate_safe :
    (∀ sx sy cLeft cTop cRight cBottom : ℚ,
      cLeft ≤ cRight →
      sx = (cLeft + cRight) / 2 →
      sy < (cTop + cBottom) / 2 →
      leaderExit sx sy cLeft cTop cRight cBottom = ((cLeft + cRight) / 2, cTop) ∧
      sy - (cTop + cBottom) / 2 ≠ 0) ∧
    (∀ cLeft cTop cRight cBottom : ℚ,
      leaderExit ((cLeft + cRight) / 2) ((cTop + cBottom) / 2) cLeft cTop cRight cBottom
        = ((cLeft + cRight) / 2, cTop)) ∧
    (∀ s : ℚ, segDiv s ≠ 0) ∧
    (∀ sx sy ex ey t : ℚ, leaderTotal sx sy ex ey = 0 →
      leaderDot sx sy ex ey t = (ex, ey)) := by
  refine ⟨?_, ?_, ?_, ?_⟩
  · intro sx sy cLeft cTop cRight cBottom hwid hsx hsy
    subst hsx
    have hdy : sy - (cTop + cBottom) / 2 < 0 := by linarith
    have hdy0 : sy - (cTop + cBottom) / 2 ≠ 0 := ne_of_lt hdy
    refine ⟨?_, hdy0⟩
    rw [leaderExit, if_neg, if_neg]
    · have hz : (cLeft + cRight) / 2 - (cLeft + cRight) / 2 = 0 := sub_self _
      have hsgn : jsSign (sy - (cTop + cBottom) / 2) = -1 := by
        rw [jsSign, if_neg (not_lt.2 (le_of_lt hdy)), if_pos hdy]
      rw [hz, hsgn]
      have h1 : (0:ℚ) * (((cBottom - cTop) / 2) / |sy - (cTop + cBottom) / 2|) = 0 :=
        zero_mul _
      rw [h1, add_zero]
      have h2 : (cTop + cBottom) / 2 + (-1) * ((cBottom - cTop) / 2) = cTop := by ring
      rw [h2]
    · rw [not_lt]
      have hz : (cLeft + cRight) / 2 - (cLeft + cRight) / 2 = 0 := sub_self _
      rw [hz, abs_zero, zero_mul]
      exact mul_nonneg (abs_nonneg _) (by linarith)
    · intro hand
      exact hdy0 (abs_eq_zero.1 hand.2)
  · intro cLeft cTop cRight cBottom
    rw [leaderExit, if_pos]
    exact ⟨by simp, by simp⟩
  · intro s
    rw [segDiv]
    split
    · exact one_ne_zero
    · assumption
  · intro sx sy ex ey t htot
    simp [leaderDot, htot, leaderSeg1, abs_nonneg]

/-- Witness for C9: a concrete callout rectangle [100,300]×[50,150] with the
station at (200, 80), exactly above the center (200, 100): the exit point is
the top-edge midpoint (200, 50) and the divisor `|dy| = 20` is nonzero. -/
theorem leaderLine_degenerate_safe_witness :
    leaderExit 200 80 100 50 300 150 = ((100 + 300) / 2, 50) ∧
    (80:ℚ) - (50 + 150) / 2 ≠ 0 :=
  leaderLine_degenerate_safe.1 200 80 100 50 300 150
    (by norm_num) (by norm_num) (by norm_num)

/-- The optional link of a resume section (resume.json schema). -/
structure SectionLink where
  label : String
  url : String
deriving Repr, DecidableEq

/-- One resume section as loaded from resume.json into `sectionMap`. -/
structure Sect where
  id : String
  title : String
  bullets : List String
  link : Option SectionLink
deriving Repr, DecidableEq

/-- Commands emitted toward the DOM/presentation layer, used to observe what
the embedded state machine does on each step. -/
inductive UICmd where
  | lookupSection (id : String)
  | warnMissing (id : String)
  | sidebarSet (id : String)
  | calloutShow (id : String)
  | signalLostLatch (id : String)
deriving Repr, DecidableEq

/-- The mutable state of game.js relevant to the interaction machine:
module-level variables (`calloutOpen`, `calloutStationId`, `lastAutoOpenedId`),
the DOM flags of the callout element (`signalLost` = class `signal-lost`,
`signalText` = nonempty `#callout-signal` text, `hidden` = class `hidden`),
the scene fields `_leaderPulseT` and `_nearestSceneStation`, the sidebar's
current section, and the not-yet-fired `setTimeout` closes as
`(capturedStationId, fireTime)` pairs. -/
structure GState where
  calloutOpen : Bool
  calloutStationId : Option String
  lastAutoOpenedId : Option String
  signalLost : Bool
  signalText : Bool
  hidden : Bool
  leaderPulseT : ℚ
  sidebarSectionId : Option String
  nearestScene : Option Station
  pending : List (String × ℚ)
deriving Repr, DecidableEq

/-- The state at scene creation: nothing open, pulse phase 0, no timers. -/
def initState : GState :=
  ⟨false, none, none, false, false, true, 0, none, none, []⟩

/-- `updateSidebar` (game.js lines 705-762), abstracted to its observable
core: record which section the sidebar shows. -/
def updateSidebarS (sid : String) (g : GState) : GState :=
  { g with sidebarSectionId := some sid }

/-- `showCallout` (game.js lines 658-689): set the station id, clear the
signal text, remove the `hidden` and `signal-lost` classes, mark open.
(The deferred `positionCallout` call is modelled separately by the placement
functions.) -/
def showCalloutS (sid : String) (g : GState) : GState :=
  { g with calloutStationId := some sid, signalText := false,
           hidden := false, signalLost := false, calloutOpen := true }

/-- `onStationInteract` (game.js lines 640-652): look up the section by id;
if absent, warn and return unchanged; otherwise update the sidebar and show
the callout. -/
def onStationInteractS (smap : String → Option Sect) (sid : String) (g : GState) :
    GState × List UICmd :=
  match smap sid with
  | none => (g, [UICmd.lookupSection sid, UICmd.warnMissing sid])
  | some _ => (showCalloutS sid (updateSidebarS sid g),
      [UICmd.lookupSection sid, UICmd.sidebarSet sid, UICmd.calloutShow sid])

/-- `closeCallout` (game.js lines 691-699): add `hidden`, remove
`signal-lost`, clear the leader line, reset `calloutOpen`,
`calloutStationId` and `lastAutoOpenedId`.  Nothing else is touched — in
particular `_leaderPulseT` and the scheduled timers persist. -/
def closeCalloutS (g : GState) : GState :=
  { g with hidden := true, signalLost := false, calloutOpen := false,
           calloutStationId := none, lastAutoOpenedId := none }

/-- The auto-open edge of `_checkProximity` (game.js lines 345-353): if a
nearest station exists and differs from `lastAutoOpenedId`, record it and
fire the interaction; if no station is near, reset `lastAutoOpenedId`. -/
def openPhase (smap : String → Option Sect) : Option Station → GState → GState × List UICmd
  | some s, g =>
      if g.lastAutoOpenedId ≠ some s.id
      then onStationInteractS smap s.id { g with lastAutoOpenedId := some s.id }
      else (g, [])
  | none, g => ({ g with lastAutoOpenedId := none }, [])

/-- The signal-lost block of `_checkProximity` (game.js lines 356-376): while
a callout is open, compare the avatar's distance to the open station against
`SIGNAL_LOST_R`; beyond it, set the warning text and — only on the transition
into the `signal-lost` class — schedule a close in 600 ms that captures the
current station id; at or below it, clear the text and the class.  The
comparison `dist > SIGNAL_LOST_R` is modelled by squared distances. -/
def signalBlockS (stations : List Station) (px py now : ℚ) (g : GState) :
    GState × List UICmd :=
  if g.calloutOpen then
    match g.calloutStationId with
    | none => (g, [])
    | some cid =>
      match stations.find? (fun t => decide (t.id = cid)) with
      | none => (g, [])
      | some st =>
        if stationDistSq px py st > SIGNAL_LOST_R * SIGNAL_LOST_R then
          if g.signalLost then ({ g with signalText := true }, [])
          else
            ({ g with
                signalText := true
                signalLost := true
                pending := g.pending ++ [(st.id, now + 600)] },
             [UICmd.signalLostLatch st.id])
        else ({ g with signalText := false, signalLost := false }, [])
  else (g, [])

/-- One full `_checkProximity` tick (game.js lines 334-377): nearest-station
scan, `_nearestSceneStation` update, auto-open edge, then the signal-lost
block, with the emitted commands concatenated. -/
def checkProximityS (stations : List Station) (smap : String → Option Sect)
    (px py now : ℚ) (g : GState) : GState × List UICmd :=
  ((signalBlockS stations px py now
      (openPhase smap (nearestStation stations px py INTERACT_R)
        { g with nearestScene := nearestStation stations px py INTERACT_R }).1).1,
   (openPhase smap (nearestStation stations px py INTERACT_R)
      { g with nearestScene := nearestStation stations px py INTERACT_R }).2
     ++ (signalBlockS stations px py now
        (openPhase smap (nearestStation stations px py INTERACT_R)
          { g with nearestScene := nearestStation stations px py INTERACT_R }).1).2)

/-- Remove the first pending timer entry scheduled for `sid`. -/
def erasePendingFirst (sid : String) : List (String × ℚ) → List (String × ℚ)
  | [] => []
  | p :: rest => if p.1 = sid then rest else p :: erasePendingFirst sid rest

/-- Firing of one scheduled `setTimeout` close (game.js line 368): the timer
exists only if it was scheduled; its callback is
`if (calloutStationId === st.def.id) closeCallout()` — it closes whenever the
open callout still shows the captured station id, with no re-check of the
distance or of the `signal-lost` state. -/
def timerFireS (sid : String) (g : GState) : GState :=
  if (g.pending.any fun p => decide (p.1 = sid)) then
    if g.calloutStationId = some sid
    then closeCalloutS { g with pending := erasePendingFirst sid g.pending }
    else { g with pending := erasePendingFirst sid g.pending }
  else g

/-- One tick's input: the avatar position and the current time. -/
structure TickIn where
  px : ℚ
  py : ℚ
  now : ℚ
deriving Repr, DecidableEq

/-- A run of consecutive `_checkProximity` ticks, collecting all emitted
commands. -/
def runTicks (stations : List Station) (smap : String → Option Sect) :
    GState → List TickIn → GState × List UICmd
  | g, [] => (g, [])
  | g, p :: rest =>
    ((runTicks stations smap (checkProximityS stations smap p.px p.py p.now g).1 rest).1,
     (checkProximityS stations smap p.px p.py p.now g).2
       ++ (runTicks stations smap (checkProximityS stations smap p.px p.py p.now g).1 rest).2)

/-- Whether a command is a Content Store lookup. -/
def isLookup : UICmd → Bool
  | UICmd.lookupSection _ => true
  | _ => false

/-- Number of Content Store lookups in a command list. -/
def countLookups (cs : List UICmd) : ℕ :=
  (cs.filter isLookup).length

/-- Whether a command updates the side panel or shows the callout. -/
def isPanelCmd : UICmd → Bool
  | UICmd.sidebarSet _ => true
  | UICmd.calloutShow _ => true
  | _ => false

lemma countLookups_append (a b : List UICmd) :
    countLookups (a ++ b) = countLookups a + countLookups b := by
  simp [countLookups, List.filter_append]

/-- The signal-lost block never touches `lastAutoOpenedId`, the open flag,
the open station id or the sidebar, and never emits a lookup or a panel
command. -/
lemma signalBlock_frame (stations : List Station) (px py now : ℚ) (g : GState) :
    (signalBlockS stations px py now g).1.lastAutoOpenedId = g.lastAutoOpenedId ∧
    (signalBlockS stations px py now g).1.calloutOpen = g.calloutOpen ∧
    (signalBlockS stations px py now g).1.calloutStationId = g.calloutStationId ∧
    (signalBlockS stations px py now g).1.sidebarSectionId = g.sidebarSectionId ∧
    countLookups (signalBlockS stations px py now g).2 = 0 ∧
    (∀ c ∈ (signalBlockS stations px py now g).2, isPanelCmd c = false) := by
  unfold signalBlockS
  repeat' split
  all_goals refine ⟨rfl, rfl, rfl, rfl, rfl, ?_⟩
  all_goals intro c hc
  all_goals simp only [List.mem_singleton, List.not_mem_nil] at hc
  all_goals first
    | exact absurd hc (by simp)
    | (subst hc; rfl)

/-- A closed callout skips the signal-lost block entirely. -/
lemma signalBlock_closed (stations : List Station) (px py now : ℚ) (g : GState)
    (h : g.calloutOpen = false) :
    signalBlockS stations px py now g = (g, []) := by
  unfold signalBlockS
  rw [h]
  rfl

/-- `onStationInteract` always emits exactly one lookup and never touches
`lastAutoOpenedId`. -/
lemma onStationInteract_frame (smap : String → Option Sect) (sid : String) (g : GState) :
    countLookups (onStationInteractS smap sid g).2 = 1 ∧
    (onStationInteractS smap sid g).1.lastAutoOpenedId = g.lastAutoOpenedId := by
  unfold onStationInteractS
  split
  · exact ⟨rfl, rfl⟩
  · exact ⟨rfl, rfl⟩

/-- Reduction of the auto-open edge on a found station, in the exact shape
used by `checkProximityS`. -/
lemma openPhase_some (smap : String → Option Sect) (s : Station) (g : GState) :
    openPhase smap (some s) { g with nearestScene := some s }
      = if g.lastAutoOpenedId ≠ some s.id
        then onStationInteractS smap s.id
          { g with nearestScene := some s, lastAutoOpenedId := some s.id }
        else ({ g with nearestScene := some s }, []) := rfl

/-- Reduction of the auto-open edge when no station is near. -/
lemma openPhase_none (smap : String → Option Sect) (g : GState) :
    openPhase smap none { g with nearestScene := none }
      = ({ g with nearestScene := none, lastAutoOpenedId := none }, []) := rfl

/-- A tick whose nearest station is already `lastAutoOpenedId` fires nothing:
no lookup is emitted and `lastAutoOpenedId` is unchanged. -/
lemma tick_stay (stations : List Station) (smap : String → Option Sect)
    (px py now : ℚ) (g : GState) (s : Station)
    (hn : nearestStation stations px py INTERACT_R = some s)
    (hl : g.lastAutoOpenedId = some s.id) :
    (checkProximityS stations smap px py now g).1.lastAutoOpenedId = some s.id ∧
    countLookups (checkProximityS stations smap px py now g).2 = 0 := by
  unfold checkProximityS
  rw [hn, openPhase_some, if_neg (not_not_intro hl)]
  dsimp only
  have hsb := signalBlock_frame stations px py now { g with nearestScene := some s }
  refine ⟨?_, ?_⟩
  · rw [hsb.1]
    exact hl
  · rw [countLookups_append, hsb.2.2.2.2.1]
    rfl

/-- A tick whose nearest station differs from `lastAutoOpenedId` fires the
interaction: exactly one lookup, and `lastAutoOpenedId` becomes that
station's id. -/
lemma tick_fire (stations : List Station) (smap : String → Option Sect)
    (px py now : ℚ) (g : GState) (s : Station)
    (hn : nearestStation stations px py INTERACT_R = some s)
    (hl : g.lastAutoOpenedId ≠ some s.id) :
    (checkProximityS stations smap px py now g).1.lastAutoOpenedId = some s.id ∧
    countLookups (checkProximityS stations smap px py now g).2 = 1 := by
  unfold checkProximityS
  rw [hn, openPhase_some, if_pos hl]
  have hoi := onStationInteract_frame smap s.id
    { g with nearestScene := some s, lastAutoOpenedId := some s.id }
  have hsb := signalBlock_frame stations px py now
    (onStationInteractS smap s.id
      { g with nearestScene := some s, lastAutoOpenedId := some s.id }).1
  refine ⟨?_, ?_⟩
  · rw [hsb.1, hoi.2]
  · rw [countLookups_append, hsb.2.2.2.2.1, hoi.1]

/-- A tick with no station in radius resets `lastAutoOpenedId` and fires
nothing. -/
lemma tick_none (stations : List Station) (smap : String → Option Sect)
    (px py now : ℚ) (g : GState)
    (hn : nearestStation stations px py INTERACT_R = none) :
    (checkProximityS stations smap px py now g).1.lastAutoOpenedId = none ∧
    countLookups (checkProximityS stations smap px py now g).2 = 0 := by
  unfold checkProximityS
  rw [hn, openPhase_none]
  dsimp only
  have hsb := signalBlock_frame stations px py now
    { g with nearestScene := none, lastAutoOpenedId := none }
  refine ⟨?_, ?_⟩
  · rw [hsb.1]
  · rw [countLookups_append, hsb.2.2.2.2.1]
    rfl

/-- Over a run of ticks that all report the same already-opened station,
nothing fires and the latch is preserved. -/
lemma run_stay (stations : List Station) (smap : String → Option Sect) (s : Station) :
    ∀ (ps : List TickIn) (g : GState),
      (∀ p ∈ ps, nearestStation stations p.px p.py INTERACT_R = some s) →
      g.lastAutoOpenedId = some s.id →
      (runTicks stations smap g ps).1.lastAutoOpenedId = some s.id ∧
      countLookups (runTicks stations smap g ps).2 = 0 := by
  intro ps
  induction ps with
  | nil =>
      intro g _ hl
      exact ⟨hl, rfl⟩
  | cons p rest ih =>
      intro g hall hl
      have hn := hall p (List.mem_cons_self p rest)
      have ht := tick_stay stations smap p.px p.py p.now g s hn hl
      have hrest := ih (checkProximityS stations smap p.px p.py p.now g).1
        (fun q hq => hall q (List.mem_cons_of_mem p hq)) ht.1
      unfold runTicks
      refine ⟨hrest.1, ?_⟩
      rw [countLookups_append, ht.2, hrest.2]

/-- Claim C4 amended: `closeCallout` hides the panel and resets `signalLost`,
`calloutOpen`, `calloutStationId` and `lastAutoOpenedId`, but the leader
pulse phase `_leaderPulseT` (and everything else, including scheduled
timers) retains its pre-close value — it is not reset to its initial 0. -/
theorem closeCallout_resets (g : GState) :
    closeCalloutS g = { g with hidden := true, signalLost := false, calloutOpen := false,
                               calloutStationId := none, lastAutoOpenedId := none } ∧
    (closeCalloutS g).leaderPulseT = g.leaderPulseT ∧
    (closeCalloutS g).calloutOpen = false ∧
    (closeCalloutS g).calloutStationId = none ∧
    (closeCalloutS g).lastAutoOpenedId = none ∧
    (closeCalloutS g).signalLost = false ∧
    (closeCalloutS g).pending = g.pending :=
  ⟨rfl, rfl, rfl, rfl, rfl, rfl, rfl⟩

/-- A state with the callout open on "s1" and the leader pulse mid-cycle. -/
def cexPulseState : GState :=
  { initState with
      calloutOpen := true
      calloutStationId := some "s1"
      lastAutoOpenedId := some "s1"
      hidden := false
      leaderPulseT := 1 / 2 }

/-- Counterexample to C4 as stated: closing a callout whose leader pulse
phase is 1/2 leaves `leaderPulseT` at 1/2, not at its empty/initial value 0 —
so not every Interaction State field is reset by `closeCallout`. -/
theorem closeCallout_pulse_counterexample :
    (closeCalloutS cexPulseState).leaderPulseT = 1 / 2 ∧ ((1:ℚ) / 2 ≠ 0) :=
  ⟨by simp [closeCalloutS, cexPulseState], by norm_num⟩

/-- Claim C3: when the fired interaction's station id has no matching section
in the content store, `onStationInteract` is a no-op apart from the lookup
and the diagnostic: the state (the whole machine, hence every interaction
field) is exactly as before the interaction, and no sidebar or callout
command is emitted.  Moreover a full tick that fires such an interaction
from a closed machine leaves it closed, with the open station id, sidebar
and signal flag unchanged, and emits no panel command. -/
theorem missingSection_noop :
    (∀ (smap : String → Option Sect) (sid : String) (g : GState),
      smap sid = none →
      onStationInteractS smap sid g
        = (g, [UICmd.lookupSection sid, UICmd.warnMissing sid])) ∧
    (∀ (stations : List Station) (smap : String → Option Sect) (p : TickIn)
        (g : GState) (s : Station),
      nearestStation stations p.px p.py INTERACT_R = some s →
      smap s.id = none →
      g.calloutOpen = false →
      (checkProximityS stations smap p.px p.py p.now g).1.calloutOpen = false ∧
      (checkProximityS stations smap p.px p.py p.now g).1.calloutStationId
        = g.calloutStationId ∧
      (checkProximityS stations smap p.px p.py p.now g).1.sidebarSectionId
        = g.sidebarSectionId ∧
      (checkProximityS stations smap p.px p.py p.now g).1.signalLost = g.signalLost ∧
      (∀ c ∈ (checkProximityS stations smap p.px p.py p.now g).2,
        isPanelCmd c = false)) := by
  have hbase : ∀ (smap : String → Option Sect) (sid : String) (g : GState),
      smap sid = none →
      onStationInteractS smap sid g
        = (g, [UICmd.lookupSection sid, UICmd.warnMissing sid]) := by
    intro smap sid g hm
    unfold onStationInteractS
    rw [hm]
  refine ⟨hbase, ?_⟩
  intro stations smap p g s hn hm hopen
  unfold checkProximityS
  rw [hn, openPhase_some]
  by_cases hif : g.lastAutoOpenedId ≠ some s.id
  · rw [if_pos hif,
      hbase smap s.id { g with nearestScene := some s, lastAutoOpenedId := some s.id } hm]
    dsimp only
    rw [signalBlock_closed stations p.px p.py p.now
      { g with nearestScene := some s, lastAutoOpenedId := some s.id } hopen]
    refine ⟨hopen, rfl, rfl, rfl, ?_⟩
    intro c hc
    rw [List.append_nil] at hc
    rcases List.mem_cons.1 hc with h | h
    · subst h; rfl
    · rcases List.mem_cons.1 h with h' | h'
      · subst h'; rfl
      · exact absurd h' (List.not_mem_nil c)
  · rw [if_neg hif]
    dsimp only
    rw [signalBlock_closed stations p.px p.py p.now
      { g with nearestScene := some s } hopen]
    exact ⟨hopen, rfl, rfl, rfl, fun c hc => by simp at hc⟩

/-- Witness for C3: with an empty content store, firing the interaction for
"s1" from the initial state leaves the state exactly unchanged and emits only
the lookup and the diagnostic. -/
theorem missingSection_noop_witness :
    onStationInteractS (fun _ => none) "s1" initState
      = (initState, [UICmd.lookupSection "s1", UICmd.warnMissing "s1"]) :=
  missingSection_noop.1 (fun _ => none) "s1" initState rfl

/-- Claim C8 amended: across any run of consecutive ticks during which the
proximity query keeps returning the same station `s` (the nearest station
strictly within the interaction radius), the open and its Content Store
lookup fire exactly once, on the entering tick; a tick with no station in
radius resets `lastAutoOpenedId` (so re-entering re-fires); and an explicit
close clears `lastAutoOpenedId`, so a tick that still reports `s` right
after a close fires the open again.  (If the nearest in-radius station
switches to another station and back, the open for `s` fires again even if
the avatar never left `s`'s radius — see the counterexample.) -/
theorem proximity_open_once :
    (∀ (stations : List Station) (smap : String → Option Sect) (s : Station)
        (ps : List TickIn) (g : GState),
      (∀ p ∈ ps, nearestStation stations p.px p.py INTERACT_R = some s) →
      g.lastAutoOpenedId = some s.id →
      countLookups (runTicks stations smap g ps).2 = 0 ∧
      (runTicks stations smap g ps).1.lastAutoOpenedId = some s.id) ∧
    (∀ (stations : List Station) (smap : String → Option Sect) (s : Station)
        (p : TickIn) (ps : List TickIn) (g : GState),
      (∀ q ∈ p :: ps, nearestStation stations q.px q.py INTERACT_R = some s) →
      g.lastAutoOpenedId ≠ some s.id →
      countLookups (checkProximityS stations smap p.px p.py p.now g).2 = 1 ∧
      countLookups (runTicks stations smap g (p :: ps)).2 = 1) ∧
    (∀ (stations : List Station) (smap : String → Option Sect) (p : TickIn) (g : GState),
      nearestStation stations p.px p.py INTERACT_R = none →
      (checkProximityS stations smap p.px p.py p.now g).1.lastAutoOpenedId = none) ∧
    (∀ g : GState, (closeCalloutS g).lastAutoOpenedId = none) ∧
    (∀ (stations : List Station) (smap : String → Option Sect) (p : TickIn)
        (g : GState) (s : Station),
      nearestStation stations p.px p.py INTERACT_R = some s →
      countLookups (checkProximityS stations smap p.px p.py p.now (closeCalloutS g)).2
        = 1) := by
  refine ⟨?_, ?_, ?_, ?_, ?_⟩
  · intro stations smap s ps g hall hl
    have h := run_stay stations smap s ps g hall hl
    exact ⟨h.2, h.1⟩
  · intro stations smap s p ps g hall hl
    have hn := hall p (List.mem_cons_self p ps)
    have ht := tick_fire stations smap p.px p.py p.now g s hn hl
    refine ⟨ht.2, ?_⟩
    have hrest := run_stay stations smap s ps
      (checkProximityS stations smap p.px p.py p.now g).1
      (fun q hq => hall q (List.mem_cons_of_mem p hq)) ht.1
    unfold runTicks
    rw [countLookups_append, ht.2, hrest.2]
  · intro stations smap p g hn
    exact (tick_none stations smap p.px p.py p.now g hn).1
  · intro g
    rfl
  · intro stations smap p g s hn
    exact (tick_fire stations smap p.px p.py p.now (closeCalloutS g) s hn
      (by simp [closeCalloutS])).2

/-- A one-station world used by concrete traces. -/
def st1 : Station := ⟨"s1", 0, 0, 0, "S1"⟩

/-- The station list of the one-station world. -/
def stations1 : List Station := [st1]

/-- A content store that resolves every id (the happy path of resume.json:
every station id has a section). -/
def totalSectionMap : String → Option Sect :=
  fun sid => some ⟨sid, "SECTION", [], none⟩

/-- Witness for C8: in the one-station world, entering the station's radius
(distance 50 < 88, then 40 < 88) fires exactly one lookup across the
two-tick run, on the entering tick. -/
theorem proximity_open_once_witness :
    countLookups (checkProximityS stations1 totalSectionMap 0 50 0 initState).2 = 1 ∧
    countLookups (runTicks stations1 totalSectionMap initState
      [⟨0, 50, 0⟩, ⟨0, 40, 16⟩]).2 = 1 := by
  have e1 : nearestStation stations1 0 50 INTERACT_R = some st1 := by
    norm_num [nearestStation, nearestGo, accBound, stationDistSq, distSq,
      stations1, st1, INTERACT_R]
  have e2 : nearestStation stations1 0 40 INTERACT_R = some st1 := by
    norm_num [nearestStation, nearestGo, accBound, stationDistSq, distSq,
      stations1, st1, INTERACT_R]
  exact proximity_open_once.2.1 stations1 totalSectionMap st1 ⟨0, 50, 0⟩ [⟨0, 40, 16⟩]
    initState
    (by
      intro q hq
      rcases List.mem_cons.1 hq with h | h
      · subst h
        exact e1
      · rcases List.mem_cons.1 h with h' | h'
        · subst h'
          exact e2
        · exact absurd h' (List.not_mem_nil q))
    (by simp [initState, st1])

lemma strCSself : (decide ("core-skills-software" = "core-skills-software")) = true := by
  decide

lemma strEHself : (decide ("experience-humana" = "experience-humana")) = true := by
  decide

lemma strCSEH : (decide ("core-skills-software" = "experience-humana")) = false := by
  decide

lemma strEHCS : (decide ("experience-humana" = "core-skills-software")) = false := by
  decide

lemma strCSEHprop : ("core-skills-software" = "experience-humana") = False := by
  simp

lemma strEHCSprop : ("experience-humana" = "core-skills-software") = False := by
  simp

lemma strS1self : (decide ("s1" = "s1")) = true := by
  decide

lemma noneEqSomeFalse (a : String) : ((none : Option String) = some a) = False := by
  simp

lemma someEqNoneFalse (a : String) : ((some a : Option String) = none) = False := by
  simp

/-- The real station `core-skills-software` (140, 300) of the `STATIONS`
table. -/
def stA : Station := ⟨"core-skills-software", 140, 300, 0x00E5FF, "STACK.SW"⟩

/-- The real station `experience-humana` (200, 440) of the `STATIONS`
table; its anchor is about 152 px from `stA`, so the two 88-px interaction
radii overlap. -/
def stB : Station := ⟨"experience-humana", 200, 440, 0xFF6B9D, "EXP.HUMANA"⟩

/-- The two overlapping-radius stations, in their `STATIONS` enumeration
order. -/
def stationsAB : List Station := [stA, stB]

/-- Counterexample to C8 as stated: both stations are real entries of
`STATIONS` and their interaction radii overlap.  Over the three-tick run
(165,360) → (175,380) → (165,360) the avatar stays strictly inside
`core-skills-software`'s interaction radius on every tick, yet the open (and
lookup) for `core-skills-software` fires twice, because the nearest in-radius
station switches to `experience-humana` and back in between. -/
theorem proximity_open_once_counterexample :
    stA ∈ STATIONS ∧ stB ∈ STATIONS ∧
    stationDistSq 165 360 stA < INTERACT_R * INTERACT_R ∧
    stationDistSq 175 380 stA < INTERACT_R * INTERACT_R ∧
    ((runTicks stationsAB totalSectionMap initState
        [⟨165, 360, 0⟩, ⟨175, 380, 16⟩, ⟨165, 360, 32⟩]).2.filter
      (fun c => decide (c = UICmd.lookupSection "core-skills-software"))).length = 2 := by
  refine ⟨?_, ?_, ?_, ?_, ?_⟩
  · unfold STATIONS stA
    exact List.mem_cons_of_mem _ (List.mem_cons_of_mem _ (List.mem_cons_self _ _))
  · unfold STATIONS stB
    exact List.mem_cons_of_mem _ (List.mem_cons_of_mem _ (List.mem_cons_of_mem _
      (List.mem_cons_of_mem _ (List.mem_cons_self _ _))))
  · norm_num [stationDistSq, distSq, stA, INTERACT_R]
  · norm_num [stationDistSq, distSq, stA, INTERACT_R]
  · have hrun : (runTicks stationsAB totalSectionMap initState
        [⟨165, 360, 0⟩, ⟨175, 380, 16⟩, ⟨165, 360, 32⟩]).2
        = [UICmd.lookupSection "core-skills-software",
           UICmd.sidebarSet "core-skills-software",
           UICmd.calloutShow "core-skills-software",
           UICmd.lookupSection "experience-humana",
           UICmd.sidebarSet "experience-humana",
           UICmd.calloutShow "experience-humana",
           UICmd.lookupSection "core-skills-software",
           UICmd.sidebarSet "core-skills-software",
           UICmd.calloutShow "core-skills-software"] := by
      norm_num [runTicks, checkProximityS, openPhase, onStationInteractS,
        showCalloutS, updateSidebarS, signalBlockS, nearestStation, nearestGo,
        accBound, stationDistSq, distSq, stationsAB, stA, stB, totalSectionMap,
        initState, INTERACT_R, SIGNAL_LOST_R, List.find?,
        strCSself, strEHself, strCSEH, strEHCS, strCSEHprop, strEHCSprop,
        noneEqSomeFalse, someEqNoneFalse]
    rw [hrun]
    decide

/-- Claim C1 amended: while a callout is open on station `cid`, a proximity
tick at distance at or below the signal-lost threshold clears the signal-lost
flag and text and leaves the callout open on `cid` (the recovery
`OpenSignalLost(s) → Open(s)`); but a pending delayed close is not cancelled
by that recovery: when a scheduled timer for `sid` fires, it closes the
callout exactly when the open callout's station id still equals `sid` —
regardless of the current distance or signal-lost state — and is a no-op
apart from consuming the timer when the callout has switched away from
`sid`. -/
theorem signalLost_recovery_behavior :
    (∀ (stations : List Station) (px py now : ℚ) (g : GState) (cid : String)
        (st : Station),
      g.calloutOpen = true →
      g.calloutStationId = some cid →
      stations.find? (fun t => decide (t.id = cid)) = some st →
      stationDistSq px py st ≤ SIGNAL_LOST_R * SIGNAL_LOST_R →
      signalBlockS stations px py now g
        = ({ g with signalText := false, signalLost := false }, [])) ∧
    (∀ (sid : String) (g : GState),
      (g.pending.any fun p => decide (p.1 = sid)) = true →
      g.calloutStationId = some sid →
      (timerFireS sid g).calloutOpen = false ∧
      (timerFireS sid g).calloutStationId = none ∧
      (timerFireS sid g).lastAutoOpenedId = none) ∧
    (∀ (sid : String) (g : GState),
      (g.pending.any fun p => decide (p.1 = sid)) = true →
      g.calloutStationId ≠ some sid →
      timerFireS sid g = { g with pending := erasePendingFirst sid g.pending }) := by
  refine ⟨?_, ?_, ?_⟩
  · intro stations px py now g cid st hopen hcid hfind hdist
    simp only [signalBlockS, hopen, hcid, hfind]
    rw [if_pos trivial, if_neg (not_lt.2 hdist)]
  · intro sid g hany hcid
    refine ⟨?_, ?_, ?_⟩
    all_goals simp [timerFireS, hany, hcid, closeCalloutS]
  · intro sid g hany hcid
    simp [timerFireS, hany, hcid]

/-- The one-station world's state right before a pending close fires: the
callout is open on "s1", the avatar has recovered (no signal-lost flag), and
a stale timer for "s1" is still pending. -/
def cexW : GState :=
  { initState with
      calloutOpen := true
      calloutStationId := some "s1"
      hidden := false
      pending := [("s1", 616)] }

/-- Witness for C1: in the recovered state `cexW`, a tick at distance 100
(≤ 180) keeps the callout open with the signal flags clear, and the stale
timer for "s1" — because the id still matches — closes it. -/
theorem signalLost_recovery_behavior_witness :
    signalBlockS stations1 0 100 650 cexW
      = ({ cexW with signalText := false, signalLost := false }, []) ∧
    (timerFireS "s1" cexW).calloutOpen = false ∧
    (timerFireS "s1" cexW).calloutStationId = none := by
  have h1 := signalLost_recovery_behavior.1 stations1 0 100 650 cexW "s1"
    ⟨"s1", 0, 0, 0, "S1"⟩ (by simp [cexW, initState]) (by simp [cexW, initState])
    (by simp [stations1, st1, List.find?])
    (by norm_num [stationDistSq, distSq, SIGNAL_LOST_R])
  have h2 := signalLost_recovery_behavior.2.1 "s1" cexW
    (by simp [cexW, initState]) (by simp [cexW, initState])
  exact ⟨h1, h2.1, h2.2.1⟩

/-- First trace state of the C1 counterexample: tick at (0,50) from the
initial state opens the callout on "s1". -/
def cexG1 : GState := (checkProximityS stations1 totalSectionMap 0 50 0 initState).1

/-- Second trace state: tick at (0,200) (distance 200 > 180) latches the
signal-lost state and schedules the delayed close for "s1" at time 616. -/
def cexG2 : GState := (checkProximityS stations1 totalSectionMap 0 200 16 cexG1).1

/-- Third trace state: tick at (0,100) (distance 100 ≤ 180) recovers: the
state is Open("s1") again, but the pending close is still scheduled. -/
def cexG3 : GState := (checkProximityS stations1 totalSectionMap 0 100 32 cexG2).1

/-- Counterexample to C1 as stated: the avatar's distance drops back to 100
(at or below the threshold 180) before the delayed close fires, the state
returns to Open("s1") — yet when the scheduled timer for "s1" then fires,
the callout closes anyway: the timer callback checks only that the station
id is unchanged, not that the avatar is still beyond the threshold or that
the state is still OpenSignalLost. -/
theorem signalLost_recovery_counterexample :
    cexG2.signalLost = true ∧
    cexG2.pending = [("s1", 616)] ∧
    stationDistSq 0 100 st1 ≤ SIGNAL_LOST_R * SIGNAL_LOST_R ∧
    cexG3.calloutOpen = true ∧
    cexG3.signalLost = false ∧
    cexG3.calloutStationId = some "s1" ∧
    cexG3.pending = [("s1", 616)] ∧
    (timerFireS "s1" cexG3).calloutOpen = false ∧
    (timerFireS "s1" cexG3).calloutStationId = none := by
  have h1 : cexG1 = ⟨true, some "s1", some "s1", false, false, false, 0, some "s1",
      some ⟨"s1", 0, 0, 0, "S1"⟩, []⟩ := by
    norm_num [cexG1, checkProximityS, openPhase, onStationInteractS, showCalloutS,
      updateSidebarS, signalBlockS, nearestStation, nearestGo, accBound,
      stationDistSq, distSq, stations1, st1, totalSectionMap, initState,
      INTERACT_R, SIGNAL_LOST_R, List.find?, strS1self, noneEqSomeFalse,
      someEqNoneFalse]
  have h2 : cexG2 = ⟨true, some "s1", none, true, true, false, 0, some "s1",
      none, [("s1", 616)]⟩ := by
    norm_num [cexG2, h1, checkProximityS, openPhase, onStationInteractS, showCalloutS,
      updateSidebarS, signalBlockS, nearestStation, nearestGo, accBound,
      stationDistSq, distSq, stations1, st1, totalSectionMap,
      INTERACT_R, SIGNAL_LOST_R, List.find?, strS1self, noneEqSomeFalse,
      someEqNoneFalse]
  have h3 : cexG3 = ⟨true, some "s1", none, false, false, false, 0, some "s1",
      none, [("s1", 616)]⟩ := by
    norm_num [cexG3, h2, checkProximityS, openPhase, onStationInteractS, showCalloutS,
      updateSidebarS, signalBlockS, nearestStation, nearestGo, accBound,
      stationDistSq, distSq, stations1, st1, totalSectionMap,
      INTERACT_R, SIGNAL_LOST_R, List.find?, strS1self, noneEqSomeFalse,
      someEqNoneFalse]
  refine ⟨by rw [h2], by rw [h2], ?_, by rw [h3], by rw [h3], by rw [h3], by rw [h3],
    ?_, ?_⟩
  · norm_num [stationDistSq, distSq, st1, SIGNAL_LOST_R]
  · rw [h3]
    simp [timerFireS, closeCalloutS, erasePendingFirst]
  · rw [h3]
    simp [timerFireS, closeCalloutS, erasePendingFirst]

end Resume
